import Mathlib

/-!
Verification of the temperature-project HTTP API (`src/app.py`) against its
natural-language specification.  The Python source is shallowly embedded:
exceptions become an `Except`-valued state monad recording side effects,
`try/except/finally` become explicit combinators with Python semantics, and
the handlers become Lean functions over parsed JSON bodies and a small model
of the SQL statements they issue.
-/

namespace TempApi

/-- Python exception values that can flow through `app.py`.  The pymysql
driver raises `IntegrityError` / `OperationalError` / `InternalError`
(all subclasses of `pymysql.Error`, which is a subclass of `Exception`);
the interpreter itself raises `ValueError` / `TypeError` /
`AttributeError`.  The two final constructors model classes that the
specification names (builtin `ConnectionError`, and a `QueryError` class
that does not exist anywhere in the source): they are needed to state
claim C9 and are never produced by any embedded function. -/
inductive PyExc where
  | valueError
  | typeError
  | attributeError
  | integrityError (errno : Nat) (msg : String)
  | operationalError (errno : Nat) (msg : String)
  | programmingError (errno : Nat) (msg : String)
  | internalError (errno : Nat) (msg : String)
  | connectionError
  | queryError
  deriving DecidableEq, Repr

/-- Membership test for `except pymysql.Error` (the driver base class). -/
def isPymysqlError : PyExc → Bool
  | .integrityError _ _ => true
  | .operationalError _ _ => true
  | .programmingError _ _ => true
  | .internalError _ _ => true
  | _ => false

/-- Membership test for `except pymysql.err.IntegrityError`. -/
def isIntegrityError : PyExc → Bool
  | .integrityError _ _ => true
  | _ => false

/-- Membership test for `except ValueError`. -/
def isValueError : PyExc → Bool
  | .valueError => true
  | _ => false

/-- Membership test for `except Exception`: every exception in `PyExc`
derives from `Exception`. -/
def isAnyException : PyExc → Bool := fun _ => true

/-- Model of `e.args[1]` on a pymysql error: the human-readable detail
message (pymysql error args are `(errno, message)` pairs). -/
def pyArgs1 : PyExc → String
  | .integrityError _ m => m
  | .operationalError _ m => m
  | .programmingError _ m => m
  | .internalError _ m => m
  | _ => ""

/-- Computation that may raise a Python exception while threading a state
(used with an event trace, and with the handler world further below). -/
def ExcState (σ : Type) (α : Type) := σ → Except PyExc α × σ

/-- Lift a value into `ExcState` (a Python expression that returns). -/
def ExcState.pure (a : α) : ExcState σ α := fun s => (.ok a, s)

/-- Sequencing: a raised exception propagates, skipping the continuation. -/
def ExcState.bind (x : ExcState σ α) (f : α → ExcState σ β) : ExcState σ β := fun s =>
  match x s with
  | (.ok a, s1) => f a s1
  | (.error e, s1) => (.error e, s1)

instance : Monad (ExcState σ) where
  pure := ExcState.pure
  bind := ExcState.bind

/-- Model of `raise e`. -/
def ExcState.raise (e : PyExc) : ExcState σ α := fun s => (.error e, s)

/-- Lift a pure `Except` computation (e.g. a builtin conversion that may
raise) into the state monad. -/
def liftE (x : Except PyExc α) : ExcState σ α := fun s => (x, s)

/-- Model of `try body except E as e: handler e` where `sel` is the
membership test of the caught exception class `E`. -/
def pyTry (body : ExcState σ α) (sel : PyExc → Bool) (handler : PyExc → ExcState σ α) :
    ExcState σ α := fun s =>
  match body s with
  | (.ok a, s1) => (.ok a, s1)
  | (.error e, s1) => if sel e then handler e s1 else (.error e, s1)

/-- Model of `try body finally fin` with Python semantics: the finaliser
always runs; if it raises, its exception replaces the pending one. -/
def pyFinally (body : ExcState σ α) (fin : ExcState σ Unit) : ExcState σ α := fun s =>
  match body s with
  | (.ok a, s1) =>
      match fin s1 with
      | (.ok _, s2) => (.ok a, s2)
      | (.error e, s2) => (.error e, s2)
  | (.error e, s1) =>
      match fin s1 with
      | (.ok _, s2) => (.error e, s2)
      | (.error e2, s2) => (.error e2, s2)

/-- Run from an initial state. -/
def ExcState.run (x : ExcState σ α) (s : σ) : Except PyExc α × σ := x s

/-! The `DB` helper class (`src/app.py` lines 36-114).  Its externally
visible effects are connection lifecycle events; the cursor outcome is an
oracle parameter (the database itself is external to the class). -/

/-- Connection lifecycle events emitted by the `DB` helper. -/
inductive DbEvent where
  | connected
  | committed
  | rolledBack
  | closed
  deriving DecidableEq, Repr

/-- Trace monad for the `DB` helper: exceptions plus an event log. -/
abbrev DbM (α : Type) := ExcState (List DbEvent) α

/-- Append one lifecycle event to the log. -/
def emitEv (e : DbEvent) : DbM Unit := fun t => (.ok (), t ++ [e])

/-- Outcome of `pymysql.connect` (or of the liveness `ping`). -/
inductive ConnectOutcome where
  | ok
  | fails (e : PyExc)
  deriving DecidableEq, Repr

/-- Outcome of `cur.execute` plus the row fetch inside a read helper. -/
inductive FetchOutcome (ρ : Type) where
  | ok (rows : ρ)
  | raises (e : PyExc)
  deriving DecidableEq, Repr

/-- Outcome of `cur.execute` for a write statement: on success the cursor
reports `(rowcount, lastrowid)`. -/
inductive ExecOutcome where
  | ok (rowcount : Nat) (lastrowid : Nat)
  | raises (e : PyExc)
  deriving DecidableEq, Repr

namespace DB

/-- Model of `DB.__connect__` (lines 45-65): connect (or ping), logging a
success; `except pymysql.Error as e: logging.error(...); raise` re-raises
the same exception. -/
def connect (co : ConnectOutcome) : DbM Unit :=
  pyTry
    (match co with
     | .ok => emitEv .connected
     | .fails e => ExcState.raise e)
    isPymysqlError
    (fun e => ExcState.raise e)

/-- Model of `DB.__disconnect__` (lines 67-74): close the (open)
connection and null the handle. -/
def disconnect : DbM Unit := emitEv .closed

/-- Model of `DB.fetch_all` / `DB.fetch_one` (lines 77-97), which differ
only in the shape of the fetched result `ρ`: connect, then
`try: execute and fetch finally: disconnect`. -/
def fetch (co : ConnectOutcome) (so : FetchOutcome ρ) : DbM ρ := do
  connect co
  pyFinally
    (match so with
     | .ok rows => ExcState.pure rows
     | .raises e => ExcState.raise e)
    disconnect

/-- Model of `DB.execute` (lines 99-114): connect, then
`try: execute; commit; return (rowcount, lastrowid)
except Exception: rollback; raise finally: disconnect`. -/
def execute (co : ConnectOutcome) (so : ExecOutcome) : DbM (Nat × Nat) := do
  connect co
  pyFinally
    (pyTry
      (match so with
       | .ok rc lid => do
           emitEv .committed
           ExcState.pure (rc, lid)
       | .raises e => ExcState.raise e)
      isAnyException
      (fun e => do
        emitEv .rolledBack
        ExcState.raise e))
    disconnect

end DB

/-! Serialization utility (`as_json`, `src/app.py` lines 131-146). -/

/-- A naive `datetime.datetime` value (microseconds play no role in the
embedded code paths: `isoformat(timespec="seconds")` drops them and
`fromisoformat` is only reached on second-precision inputs). -/
structure Datetime where
  year : Nat
  month : Nat
  day : Nat
  hour : Nat
  minute : Nat
  second : Nat
  deriving DecidableEq, Repr

/-- Field ranges guaranteed by the Python `datetime` constructor. -/
def Datetime.valid (dt : Datetime) : Prop :=
  1 ≤ dt.year ∧ dt.year ≤ 9999 ∧ 1 ≤ dt.month ∧ dt.month ≤ 12 ∧
    1 ≤ dt.day ∧ dt.day ≤ 31 ∧ dt.hour ≤ 23 ∧ dt.minute ≤ 59 ∧ dt.second ≤ 59

instance (dt : Datetime) : Decidable dt.valid := by
  unfold Datetime.valid
  infer_instance

/-- The ASCII digit character of `n % 10`. -/
def digitChar (n : Nat) : Char :=
  match n % 10 with
  | 0 => '0'
  | 1 => '1'
  | 2 => '2'
  | 3 => '3'
  | 4 => '4'
  | 5 => '5'
  | 6 => '6'
  | 7 => '7'
  | 8 => '8'
  | _ => '9'

/-- Two-digit zero-padded rendering (`%02d` for values up to 99). -/
def pad2Chars (n : Nat) : List Char := [digitChar (n / 10), digitChar n]

/-- Four-digit zero-padded rendering (`%04d` for values up to 9999). -/
def pad4Chars (n : Nat) : List Char :=
  [digitChar (n / 1000), digitChar (n / 100), digitChar (n / 10), digitChar n]

/-- Model of `v.isoformat(sep=" ", timespec="seconds")` on a naive
`datetime`: `YYYY-MM-DD HH:MM:SS` with zero-padded components and no
timezone suffix. -/
def Datetime.isoformatSpaceSeconds (dt : Datetime) : String :=
  String.mk (pad4Chars dt.year ++ '-' :: pad2Chars dt.month ++ '-' :: pad2Chars dt.day
    ++ ' ' :: pad2Chars dt.hour ++ ':' :: pad2Chars dt.minute ++ ':' :: pad2Chars dt.second)

/-- Database-native values as the DictCursor driver delivers them: the
value types the spec lists as actually stored (decimal, timestamp,
string, integer, null).  `decimal` carries the exact numeric value. -/
inductive Value where
  | decimal (q : ℚ)
  | datetime (dt : Datetime)
  | str (s : String)
  | int (n : Int)
  | null
  deriving DecidableEq, Repr

/-- JSON values, used both for parsed request bodies and for the
JSON-safe output of `as_json`.  `jnum` is a Python float, modelled by its
exact value. -/
inductive JVal where
  | jnull
  | jbool (b : Bool)
  | jint (n : Int)
  | jnum (q : ℚ)
  | jstr (s : String)
  | jlist (xs : List JVal)

/-- Model of the inner `convert_value` of `as_json` (lines 134-140):
`Decimal` becomes `float`, `datetime` becomes its seconds-precision
space-separated rendering, everything else passes through. -/
def convert_value : Value → JVal
  | .decimal q => .jnum q
  | .datetime dt => .jstr dt.isoformatSpaceSeconds
  | .str s => .jstr s
  | .int n => .jint n
  | .null => .jnull

/-- A row as fetched by the DictCursor: column name to stored value. -/
abbrev SRow := List (String × Value)

/-- A JSON-safe row. -/
abbrev JRow := List (String × JVal)

/-- Argument shapes accepted by `as_json`: `None`, a single row dict, or
a list of row dicts. -/
inductive RowOrRows where
  | absent
  | row (r : SRow)
  | rows (rs : List SRow)
  deriving DecidableEq, Repr

/-- Result shapes of `as_json`. -/
inductive JsonOut where
  | absent
  | row (r : JRow)
  | rows (rs : List JRow)

/-- Convert every value of a row dict. -/
def asJsonRow (r : SRow) : JRow := r.map (fun kv => (kv.1, convert_value kv.2))

/-- Model of `as_json` (lines 131-146): `None` maps to `None`, a list is
mapped row by row, a single dict is mapped value by value. -/
def as_json : RowOrRows → JsonOut
  | .absent => .absent
  | .rows rs => .rows (rs.map asJsonRow)
  | .row r => .row (asJsonRow r)

/-- Numeric value of a big-endian ASCII digit string. -/
def decodeDigits (cs : List Char) : Nat :=
  cs.foldl (fun acc c => 10 * acc + (c.toNat - 48)) 0

/-- The fixed format the spec prescribes for serialized timestamps:
exactly `YYYY-MM-DD HH:MM:SS` (19 characters, all-digit components,
dash-separated date, one space, colon-separated time, no timezone). -/
def isFixedFormatTimestamp (s : String) : Prop :=
  ∃ y1 y2 y3 y4 m1 m2 d1 d2 h1 h2 n1 n2 s1 s2 : Char,
    ([y1, y2, y3, y4, m1, m2, d1, d2, h1, h2, n1, n2, s1, s2].all Char.isDigit) = true ∧
    s.data = [y1, y2, y3, y4, '-', m1, m2, '-', d1, d2, ' ', h1, h2, ':', n1, n2, ':', s1, s2]

/-! Python builtin conversions as the handlers use them. -/

/-- Model of builtin `int(s)` on strings of the shapes the API receives:
an optional sign followed by ASCII digits; anything else raises
`ValueError` (whitespace trimming and underscore grouping are not
modelled; no code path in the app depends on them). -/
def pyIntDigits (ds : List Char) : Except PyExc Nat :=
  if !ds.isEmpty && ds.all Char.isDigit then .ok (decodeDigits ds) else .error .valueError

/-- Sign handling of builtin `int(s)`. -/
def pyIntOfString (s : String) : Except PyExc Int :=
  match s.data with
  | '-' :: rest =>
      match pyIntDigits rest with
      | .ok n => .ok (-(n : Int))
      | .error e => .error e
  | '+' :: rest =>
      match pyIntDigits rest with
      | .ok n => .ok (n : Int)
      | .error e => .error e
  | chars =>
      match pyIntDigits chars with
      | .ok n => .ok (n : Int)
      | .error e => .error e

/-- Model of builtin `float(s)` on strings: optional sign, digits with at
most one decimal point (exponents, infinities and whitespace are not
modelled; no code path in the app depends on them). -/
def pyFloatOfString (s : String) : Except PyExc ℚ :=
  let core : List Char → Except PyExc ℚ := fun cs =>
    let ipart := cs.takeWhile Char.isDigit
    let rest := cs.dropWhile Char.isDigit
    match rest with
    | [] => if ipart.isEmpty then .error .valueError else .ok (decodeDigits ipart)
    | '.' :: fpart =>
        if (ipart.isEmpty && fpart.isEmpty) || !fpart.all Char.isDigit then .error .valueError
        else .ok ((decodeDigits ipart : ℚ) + (decodeDigits fpart : ℚ) / (10 : ℚ) ^ fpart.length)
    | _ => .error .valueError
  match s.data with
  | '-' :: rest => (core rest).map (fun q => -q)
  | '+' :: rest => core rest
  | chars => core chars

/-- Truncation toward zero, as builtin `int` applied to a float. -/
def intTrunc (q : ℚ) : Int := q.num / (q.den : Int)

/-- Model of builtin `int(x)` on a JSON value: ints pass through, bools
are 0 or 1, floats truncate toward zero, strings are parsed (raising
`ValueError` on failure), and `None` or a list raises `TypeError`. -/
def pyInt : JVal → Except PyExc Int
  | .jint n => .ok n
  | .jbool b => .ok (if b then 1 else 0)
  | .jnum q => .ok (intTrunc q)
  | .jstr s => pyIntOfString s
  | .jnull => .error .typeError
  | .jlist _ => .error .typeError

/-- Model of builtin `float(x)` on a JSON value: numbers and bools
convert, strings are parsed (raising `ValueError` on failure), and
`None` or a list raises `TypeError`. -/
def pyFloat : JVal → Except PyExc ℚ
  | .jint n => .ok (n : ℚ)
  | .jbool b => .ok (if b then 1 else 0)
  | .jnum q => .ok q
  | .jstr s => pyFloatOfString s
  | .jnull => .error .typeError
  | .jlist _ => .error .typeError

/-- Gregorian leap-year test. -/
def isLeapYear (y : Nat) : Bool := (y % 4 == 0 && y % 100 != 0) || y % 400 == 0

/-- Days in a month, as the `datetime` constructor validates them. -/
def daysInMonth (y mo : Nat) : Nat :=
  if mo = 2 then (if isLeapYear y then 29 else 28)
  else if mo = 4 ∨ mo = 6 ∨ mo = 9 ∨ mo = 11 then 30
  else 31

/-- The `datetime(...)` constructor: range-checks every component,
raising `ValueError` outside the ranges. -/
def mkDatetimeChecked (y mo d h mi s : Nat) : Except PyExc Datetime :=
  if 1 ≤ y ∧ y ≤ 9999 ∧ 1 ≤ mo ∧ mo ≤ 12 ∧ 1 ≤ d ∧ d ≤ daysInMonth y mo ∧
      h ≤ 23 ∧ mi ≤ 59 ∧ s ≤ 59 then
    .ok ⟨y, mo, d, h, mi, s⟩
  else .error .valueError

/-- Model of `datetime.fromisoformat` restricted to the two shapes the
app can feed it after its `T`-to-space normalisation: `YYYY-MM-DD` and
`YYYY-MM-DD<sep>HH:MM:SS` with an arbitrary single separator character.
Other inputs raise `ValueError` (shorter or fractional time variants are
not modelled; no claim exercises them). -/
def fromisoformat (s : String) : Except PyExc Datetime :=
  match s.data with
  | [y1, y2, y3, y4, '-', o1, o2, '-', d1, d2] =>
      if [y1, y2, y3, y4, o1, o2, d1, d2].all Char.isDigit then
        mkDatetimeChecked (decodeDigits [y1, y2, y3, y4]) (decodeDigits [o1, o2])
          (decodeDigits [d1, d2]) 0 0 0
      else .error .valueError
  | [y1, y2, y3, y4, '-', o1, o2, '-', d1, d2, _, h1, h2, ':', n1, n2, ':', c1, c2] =>
      if [y1, y2, y3, y4, o1, o2, d1, d2, h1, h2, n1, n2, c1, c2].all Char.isDigit then
        mkDatetimeChecked (decodeDigits [y1, y2, y3, y4]) (decodeDigits [o1, o2])
          (decodeDigits [d1, d2]) (decodeDigits [h1, h2]) (decodeDigits [n1, n2])
          (decodeDigits [c1, c2])
      else .error .valueError
  | _ => .error .valueError

/-- Python truthiness of a JSON value (`if read_time:`). -/
def jvTruthy : JVal → Bool
  | .jnull => false
  | .jbool b => b
  | .jint n => n != 0
  | .jnum q => q != 0
  | .jstr s => !s.data.isEmpty
  | .jlist xs => !xs.isEmpty

/-- Model of `x.replace("T", " ")`: on a string, replaces every `T` by a
space; on any non-string value the attribute access raises
`AttributeError`. -/
def pyReplaceTSpace : JVal → Except PyExc String
  | .jstr s => .ok (String.mk (s.data.map (fun c => if c = 'T' then ' ' else c)))
  | _ => .error .attributeError

/-- A parsed JSON request body: a dict from field names to values. -/
abbrev Body := List (String × JVal)

/-- Dict access `data[k]` for a key known to be present. -/
def getv (data : Body) (k : String) : JVal := (data.lookup k).getD .jnull

/-- The list comprehension `[k for k in required if k not in data]`. -/
def missingOf (required : List String) (data : Body) : List String :=
  required.filter (fun k => (data.lookup k).isNone)

/-! Route handlers (`src/app.py` lines 161-445).  Handlers run over a
`World` holding the `temperature_log` table, the set of existing sensor
ids (for foreign-key checks), a behaviour switch injecting database
faults, and the trace of SQL statements issued so far.  `require_json`
is modelled as already having produced the parsed body. -/

/-- One stored `temperature_log` row. -/
structure TempRow where
  log_id : Nat
  read_time : Datetime
  sensor_id : Int
  temperature_f : ℚ
  humidity : ℚ
  pressure : ℚ
  deriving DecidableEq, Repr

/-- A SQL statement issued through the `DB` helper. -/
inductive DbStmt where
  | execStmt (query : String)
  | fetchStmt (query : String)
  deriving DecidableEq, Repr

/-- Database behaviour: normal table semantics, or every call raising a
given driver exception. -/
inductive DbBehavior where
  | normal
  | failWith (e : PyExc)
  deriving DecidableEq, Repr

/-- Handler-visible state. -/
structure World where
  temps : List TempRow
  sensorIds : List Int
  behavior : DbBehavior
  stmts : List DbStmt
  deriving DecidableEq, Repr

/-- Handler computations. -/
abbrev HM (α : Type) := ExcState World α

/-- Query text of the sensor insert (line 217). -/
def insertSensorQ : String :=
  "INSERT INTO sensors (sensor_id, mac_addr, device_id, device_location) VALUES (%s, %s, %s, %s)"

/-- Query text of the sensor read-back / get (lines 196, 229, 265). -/
def selectSensorQ : String :=
  "SELECT sensor_id, mac_addr, device_id, device_location FROM sensors WHERE sensor_id=%s"

/-- Query text of the sensor listing (line 187). -/
def selectSensorsQ : String :=
  "SELECT sensor_id, mac_addr, device_id, device_location FROM sensors ORDER BY sensor_id ASC"

/-- Query text of the sensor update (line 261), built from the present
field names. -/
def updateSensorQ (fields : List String) : String :=
  "UPDATE sensors SET " ++ String.intercalate ", " (fields.map (fun k => k ++ "=%s"))
    ++ " WHERE sensor_id=%s"

/-- Query text of the log insert (line 316). -/
def insertLogQ : String :=
  "INSERT INTO temperature_log (read_time, sensor_id, temperature_f, humidity, pressure) VALUES (%s, %s, %s, %s, %s)"

/-- Query text of the log read (lines 329, 359, 425). -/
def selectLogQ : String := "SELECT * FROM temperature_log WHERE log_id=%s"

/-- Query text of the log listing (line 350). -/
def selectTempsQ : String :=
  "SELECT * FROM temperature_log ORDER BY log_id DESC LIMIT %s OFFSET %s"

/-- Query text of the log update (line 420). -/
def updateLogQ (sets : List String) : String :=
  "UPDATE temperature_log SET " ++ String.intercalate ", " sets ++ " WHERE log_id=%s"

/-- Query text of the log delete (line 439). -/
def deleteLogQ : String := "DELETE FROM temperature_log WHERE log_id=%s"

/-- Query text of the health probe (line 175). -/
def healthQ : String := "SELECT 1 as ok"

/-- Responses a handler can produce (shape and status of the JSON the
routes build). -/
inductive Resp where
  | err (code : Nat) (message : String)
  | okOut (status : Nat) (body : JsonOut)
  | created (message : String) (entity : JsonOut)
  | updated (message : String) (entity : JsonOut)
  | deleted (message : String) (log_id : Nat)
  | health (status : String) (code : Nat)
  | homeMsg (message : String)

/-- Record one statement in the trace. -/
def pushStmt (w : World) (s : DbStmt) : World := {w with stmts := w.stmts ++ [s]}

/-- A `db.execute` call against the sensors table, with the cursor
outcome supplied as an oracle (the sensors table contents are not
modelled; no claim depends on them). -/
def oracleExec (q : String) (o : ExecOutcome) : HM (Nat × Nat) := fun w =>
  match o with
  | .ok rc lid => (.ok (rc, lid), pushStmt w (.execStmt q))
  | .raises e => (.error e, pushStmt w (.execStmt q))

/-- A `db.fetch_one` / `db.fetch_all` call with the result supplied as an
oracle. -/
def oracleFetch (q : String) (o : FetchOutcome ρ) : HM ρ := fun w =>
  match o with
  | .ok rows => (.ok rows, pushStmt w (.fetchStmt q))
  | .raises e => (.error e, pushStmt w (.fetchStmt q))

/-- Auto-increment: one past the largest existing `log_id`. -/
def nextLogId (table : List TempRow) : Nat := (table.map (fun r => r.log_id)).foldr max 0 + 1

/-- Detail text MySQL reports on a foreign-key violation. -/
def fkDetailMsg : String :=
  "Cannot add or update a child row: a foreign key constraint fails"

/-- The log insert statement: under normal behaviour it enforces the
foreign key on `sensor_id` (raising the driver IntegrityError) and
otherwise appends a row under a fresh auto-increment id, reporting
`(rowcount, lastrowid)`. -/
def callInsertLog (dt : Datetime) (sid : Int) (tf hum pr : ℚ) : HM (Nat × Nat) := fun w =>
  let w1 := pushStmt w (.execStmt insertLogQ)
  match w.behavior with
  | .failWith e => (.error e, w1)
  | .normal =>
      if w.sensorIds.contains sid then
        let id := nextLogId w.temps
        (.ok (1, id), {w1 with temps := w1.temps ++ [⟨id, dt, sid, tf, hum, pr⟩]})
      else (.error (.integrityError 1452 fkDetailMsg), w1)

/-- The log read by id (`fetch_one`): first matching row or `None`. -/
def callSelectLog (id : Nat) : HM (Option TempRow) := fun w =>
  let w1 := pushStmt w (.fetchStmt selectLogQ)
  match w.behavior with
  | .failWith e => (.error e, w1)
  | .normal => (.ok (w.temps.find? (fun r => r.log_id == id)), w1)

/-- Semantics of the log listing query: sort by `log_id` descending,
then apply `OFFSET` and `LIMIT`.  A negative `LIMIT` or `OFFSET` is a
MySQL syntax error, surfaced as the driver ProgrammingError. -/
def sqlSelectTempsDesc (table : List TempRow) (lim off : Int) : Except PyExc (List TempRow) :=
  if lim < 0 ∨ off < 0 then
    .error (.programmingError 1064 "You have an error in your SQL syntax")
  else
    .ok (((table.mergeSort (fun a b => decide (b.log_id ≤ a.log_id))).drop off.toNat).take
      lim.toNat)

/-- The log listing call (`fetch_all`). -/
def callSelectTemps (lim off : Int) : HM (List TempRow) := fun w =>
  let w1 := pushStmt w (.fetchStmt selectTempsQ)
  match w.behavior with
  | .failWith e => (.error e, w1)
  | .normal =>
      match sqlSelectTempsDesc w.temps lim off with
      | .ok rows => (.ok rows, w1)
      | .error e => (.error e, w1)

/-- One parsed field of a log update. -/
inductive LogUpd where
  | readTime (dt : Datetime)
  | sensorId (n : Int)
  | temperatureF (q : ℚ)
  | humidity (q : ℚ)
  | pressure (q : ℚ)
  deriving DecidableEq, Repr

/-- Apply one update to a row. -/
def applyUpd (r : TempRow) : LogUpd → TempRow
  | .readTime dt => {r with read_time := dt}
  | .sensorId n => {r with sensor_id := n}
  | .temperatureF q => {r with temperature_f := q}
  | .humidity q => {r with humidity := q}
  | .pressure q => {r with pressure := q}

/-- Apply updates left to right. -/
def applyUpds (r : TempRow) (us : List LogUpd) : TempRow := us.foldl applyUpd r

/-- The `SET ...=%s` fragment a parsed update contributes. -/
def updName : LogUpd → String
  | .readTime _ => "read_time=%s"
  | .sensorId _ => "sensor_id=%s"
  | .temperatureF _ => "temperature_f=%s"
  | .humidity _ => "humidity=%s"
  | .pressure _ => "pressure=%s"

/-- The sensor id an update list would store, if any. -/
def updSensorTarget : List LogUpd → Option Int
  | [] => Option.none
  | u :: us =>
      match updSensorTarget us with
      | some n => some n
      | Option.none => match u with | .sensorId n => some n | _ => Option.none

/-- Rows the update statement would change: MySQL reports changed rows,
not matched rows, under the client flags pymysql uses by default. -/
def updateLogRc (w : World) (lid : Nat) (us : List LogUpd) : Nat :=
  ((w.temps.filter (fun r => r.log_id == lid)).filter
    (fun r => decide (applyUpds r us ≠ r))).length

/-- Whether the update would violate the `sensor_id` foreign key: it is
checked only when some matched row is actually updated to a sensor id
that does not exist. -/
def updateLogFkBad (w : World) (lid : Nat) (us : List LogUpd) : Bool :=
  match updSensorTarget us with
  | some n => !w.sensorIds.contains n && !(w.temps.filter (fun r => r.log_id == lid)).isEmpty
  | Option.none => false

/-- The log update statement: under normal behaviour it raises the
driver IntegrityError on a foreign-key violation and otherwise applies
the updates to every matched row, reporting the changed-row count. -/
def callUpdateLog (lid : Nat) (us : List LogUpd) : HM (Nat × Nat) := fun w =>
  let w1 := pushStmt w (.execStmt (updateLogQ (us.map updName)))
  match w.behavior with
  | .failWith e => (.error e, w1)
  | .normal =>
      if updateLogFkBad w lid us then (.error (.integrityError 1452 fkDetailMsg), w1)
      else
        (.ok (updateLogRc w lid us, 0),
          {w1 with temps := w1.temps.map (fun r => if r.log_id == lid then applyUpds r us else r)})

/-- The log delete statement: `rowcount` is the number of matching rows,
which are removed. -/
def callDeleteLog (lid : Nat) : HM (Nat × Nat) := fun w =>
  let w1 := pushStmt w (.execStmt deleteLogQ)
  match w.behavior with
  | .failWith e => (.error e, w1)
  | .normal =>
      let rc := (w.temps.filter (fun r => r.log_id == lid)).length
      (.ok (rc, 0), {w1 with temps := w1.temps.filter (fun r => r.log_id != lid)})

/-- The health probe call (`fetch_one` of `SELECT 1 as ok`). -/
def callHealth : HM (Option SRow) := fun w =>
  let w1 := pushStmt w (.fetchStmt healthQ)
  match w.behavior with
  | .failWith e => (.error e, w1)
  | .normal => (.ok (some [("ok", .int 1)]), w1)

/-- A fetched log row as the DictCursor would deliver it: the numeric
columns come back as exact decimals, `read_time` as a datetime. -/
def TempRow.toRow (r : TempRow) : SRow :=
  [("log_id", .int (r.log_id : Int)), ("read_time", .datetime r.read_time),
   ("sensor_id", .int r.sensor_id), ("temperature_f", .decimal r.temperature_f),
   ("humidity", .decimal r.humidity), ("pressure", .decimal r.pressure)]

/-- Lift an optional fetched row into the `as_json` argument shape. -/
def rowOrRowsOfOpt : Option SRow → RowOrRows
  | Option.none => .absent
  | some r => .row r

/-- Required fields of `POST /api/v1/sensors` (line 210). -/
def sensorRequired : List String := ["sensor_id", "mac_addr", "device_id", "device_location"]

/-- Required fields of `POST /api/v1/temperatures` (line 296). -/
def tempRequired : List String := ["sensor_id", "temperature_f", "humidity", "pressure"]

/-- Updatable fields of `PUT /api/v1/sensors/(id)` (line 249). -/
def updatableSensorFields : List String := ["mac_addr", "device_id", "device_location"]

/-- Handler of `GET /` (lines 161-164). -/
def home : HM Resp := ExcState.pure (.homeMsg "Temperature Logger API")

/-- Handler of `GET /api/v1/health` (lines 170-178): probe the database,
degrade to 503 on any exception. -/
def health : HM Resp :=
  pyTry
    (do
      let _ ← callHealth
      ExcState.pure (.health "ok" 200))
    isAnyException
    (fun _ => ExcState.pure (.health "degraded" 503))

/-- Handler of `GET /api/v1/sensors` (lines 184-190).  There is no
try/except around the fetch. -/
def list_sensors (fO : FetchOutcome (List SRow)) : HM Resp := do
  let rows ← oracleFetch selectSensorsQ fO
  ExcState.pure (.okOut 200 (as_json (.rows rows)))

/-- Handler of `GET /api/v1/sensors/(id)` (lines 193-202).  There is no
try/except around the fetch. -/
def get_sensor (sid : Int) (fO : FetchOutcome (Option SRow)) : HM Resp := do
  let row ← oracleFetch selectSensorQ fO
  match row with
  | Option.none => ExcState.pure (.err 404 ("Sensor " ++ toString sid ++ " not found"))
  | some r => ExcState.pure (.okOut 200 (as_json (.row r)))

/-- Handler of `POST /api/v1/sensors` (lines 205-238): presence check,
insert, read back; `IntegrityError` is answered with the driver detail,
any other exception with a generic message. -/
def create_sensor (data : Body) (execO : ExecOutcome) (readO : FetchOutcome (Option SRow)) :
    HM Resp :=
  if !(missingOf sensorRequired data).isEmpty then
    ExcState.pure (.err 400 ("Missing fields: " ++
      String.intercalate ", " (missingOf sensorRequired data)))
  else
    pyTry
      (pyTry
        (do
          let _ ← liftE (pyInt (getv data "sensor_id"))
          let _ ← oracleExec insertSensorQ execO
          let _ ← liftE (pyInt (getv data "sensor_id"))
          let created ← oracleFetch selectSensorQ readO
          ExcState.pure (.created "sensor created" (as_json (rowOrRowsOfOpt created))))
        isIntegrityError
        (fun e => ExcState.pure (.err 400 ("Integrity error: " ++ pyArgs1 e))))
      isAnyException
      (fun _ => ExcState.pure (.err 400 "Failed to create sensor"))

/-- Handler of `PUT /api/v1/sensors/(id)` (lines 241-272): partial
update; zero affected rows is answered 404.  The only except clause is
the generic `except Exception`. -/
def update_sensor (sid : Int) (data : Body) (execO : ExecOutcome)
    (readO : FetchOutcome (Option SRow)) : HM Resp :=
  if (updatableSensorFields.filter (fun k => (data.lookup k).isSome)).isEmpty then
    ExcState.pure (.err 400 "No updatable fields provided")
  else
    pyTry
      (do
        let rcl ← oracleExec
          (updateSensorQ (updatableSensorFields.filter (fun k => (data.lookup k).isSome))) execO
        if rcl.1 = 0 then
          ExcState.pure (.err 404 ("Sensor " ++ toString sid ++ " not found"))
        else do
          let updated ← oracleFetch selectSensorQ readO
          ExcState.pure (.updated "sensor updated" (as_json (rowOrRowsOfOpt updated))))
      isAnyException
      (fun _ => ExcState.pure (.err 400 "Failed to update sensor"))

/-- The 400 message for a malformed `read_time` (lines 308-310, 381-383). -/
def rtErrResp : Resp := .err 400 "read_time must be ISO-like (e.g., \x272025-09-24 13:05:00\x27)"

/-- The `read_time` block of `create_temperature` (lines 302-312):
falsy or absent values default to the current UTC time; otherwise
normalise `T` to a space and parse, any exception giving a 400. -/
def parseReadTime (v : Option JVal) (now : Datetime) : Except Resp Datetime :=
  let rt := v.getD .jnull
  if jvTruthy rt then
    match (do
        let s ← pyReplaceTSpace rt
        fromisoformat s : Except PyExc Datetime) with
    | .ok dt => .ok dt
    | .error _ => .error rtErrResp
  else .ok now

/-- Handler of `POST /api/v1/temperatures` (lines 278-337). -/
def create_temperature (data : Body) (now : Datetime) : HM Resp :=
  if !(missingOf tempRequired data).isEmpty then
    ExcState.pure (.err 400 ("Missing fields: " ++
      String.intercalate ", " (missingOf tempRequired data)))
  else
    match parseReadTime (data.lookup "read_time") now with
    | .error r => ExcState.pure r
    | .ok dt =>
        pyTry
          (pyTry
            (do
              let sid ← liftE (pyInt (getv data "sensor_id"))
              let tf ← liftE (pyFloat (getv data "temperature_f"))
              let hum ← liftE (pyFloat (getv data "humidity"))
              let pr ← liftE (pyFloat (getv data "pressure"))
              let rl ← callInsertLog dt sid tf hum pr
              let created ← callSelectLog rl.2
              ExcState.pure (.created "log created"
                (as_json (rowOrRowsOfOpt (created.map TempRow.toRow)))))
            isIntegrityError
            (fun e => ExcState.pure (.err 400 ("Integrity error: " ++ pyArgs1 e))))
          isAnyException
          (fun _ => ExcState.pure (.err 400 "Failed to create log"))

/-- The pagination parse of `list_temperatures` (lines 343-344):
`limit` defaults to 100 and is clamped from above to 1000, `offset`
defaults to 0; a string that is not an integer raises `ValueError`. -/
def limOff (limitArg offsetArg : Option String) : Except PyExc (Int × Int) := do
  let lraw ← match limitArg with
    | Option.none => Except.ok (100 : Int)
    | some s => pyIntOfString s
  let l := min lraw 1000
  let o ← match offsetArg with
    | Option.none => Except.ok (0 : Int)
    | some s => pyIntOfString s
  Except.ok (l, o)

/-- Handler of `GET /api/v1/temperatures` (lines 340-353): only the
pagination parse is guarded (`except ValueError`); the fetch itself has
no try/except. -/
def list_temperatures (limitArg offsetArg : Option String) : HM Resp := fun w =>
  match limOff limitArg offsetArg with
  | .error e =>
      if isValueError e then (.ok (.err 400 "limit and offset must be integers"), w)
      else (.error e, w)
  | .ok lo =>
      ((do
        let rows ← callSelectTemps lo.1 lo.2
        ExcState.pure (.okOut 200 (as_json (.rows (rows.map TempRow.toRow))))) : HM Resp) w

/-- Handler of `GET /api/v1/temperatures/(id)` (lines 356-362).  There
is no try/except around the fetch. -/
def get_log (lid : Nat) : HM Resp := do
  let row ← callSelectLog lid
  match row with
  | Option.none => ExcState.pure (.err 404 ("log " ++ toString lid ++ " not found"))
  | some r => ExcState.pure (.okOut 200 (as_json (.row r.toRow)))

/-- One per-field validation block of `update_log`: absent key
contributes nothing; a conversion failure matching the except clause
`sel` early-returns the 400 response `onErr`; any other exception
propagates. -/
def stepField (data : Body) (k : String) (conv : JVal → Except PyExc LogUpd)
    (sel : PyExc → Bool) (onErr : Resp) (acc : List LogUpd) :
    Except PyExc (Sum Resp (List LogUpd)) :=
  match data.lookup k with
  | Option.none => .ok (.inr acc)
  | some v =>
      match conv v with
      | .ok u => .ok (.inr (acc ++ [u]))
      | .error e => if sel e then .ok (.inl onErr) else .error e

/-- The `read_time` conversion of `update_log` (lines 374-383). -/
def convReadTime (v : JVal) : Except PyExc LogUpd := do
  let s ← pyReplaceTSpace v
  let dt ← fromisoformat s
  Except.ok (.readTime dt)

/-- The `sensor_id` conversion of `update_log` (line 388): `int(...)`. -/
def convSensorId (v : JVal) : Except PyExc LogUpd := (pyInt v).map .sensorId

/-- The `temperature_f` conversion of `update_log` (line 395). -/
def convTempF (v : JVal) : Except PyExc LogUpd := (pyFloat v).map .temperatureF

/-- The `humidity` conversion of `update_log` (line 402). -/
def convHumidity (v : JVal) : Except PyExc LogUpd := (pyFloat v).map .humidity

/-- The `pressure` conversion of `update_log` (line 409). -/
def convPressure (v : JVal) : Except PyExc LogUpd := (pyFloat v).map .pressure

/-- The validation chain of `update_log` (lines 371-411): the
`read_time` block catches every exception, the four remaining blocks
catch only `ValueError`. -/
def update_log_validate (data : Body) : Except PyExc (Sum Resp (List LogUpd)) := do
  let s0 ← stepField data "read_time" convReadTime isAnyException rtErrResp []
  match s0 with
  | .inl r => Except.ok (.inl r)
  | .inr a0 =>
    let s1 ← stepField data "sensor_id" convSensorId isValueError
      (.err 400 "sensor_id must be an integer") a0
    match s1 with
    | .inl r => Except.ok (.inl r)
    | .inr a1 =>
      let s2 ← stepField data "temperature_f" convTempF isValueError
        (.err 400 "temperature_f must be a number") a1
      match s2 with
      | .inl r => Except.ok (.inl r)
      | .inr a2 =>
        let s3 ← stepField data "humidity" convHumidity isValueError
          (.err 400 "humidity must be a number") a2
        match s3 with
        | .inl r => Except.ok (.inl r)
        | .inr a3 =>
          let s4 ← stepField data "pressure" convPressure isValueError
            (.err 400 "pressure must be a number") a3
          match s4 with
          | .inl r => Except.ok (.inl r)
          | .inr a4 => Except.ok (.inr a4)

/-- Handler of `PUT /api/v1/temperatures/(id)` (lines 365-432). -/
def update_log (lid : Nat) (data : Body) : HM Resp := fun w =>
  match update_log_validate data with
  | .error e => (.error e, w)
  | .ok (.inl r) => (.ok r, w)
  | .ok (.inr us) =>
      if us.isEmpty then (.ok (.err 400 "No updatable fields provided"), w)
      else
        (pyTry
          (pyTry
            (do
              let rcl ← callUpdateLog lid us
              if rcl.1 = 0 then
                ExcState.pure (.err 404 ("log " ++ toString lid ++ " not found"))
              else do
                let updated ← callSelectLog lid
                ExcState.pure (.updated "log updated"
                  (as_json (rowOrRowsOfOpt (updated.map TempRow.toRow)))))
            isIntegrityError
            (fun e => ExcState.pure (.err 400 ("Integrity error: " ++ pyArgs1 e))))
          isAnyException
          (fun _ => ExcState.pure (.err 400 "Failed to update log"))) w

/-- Handler of `DELETE /api/v1/temperatures/(id)` (lines 435-445). -/
def delete_log (lid : Nat) : HM Resp :=
  pyTry
    (do
      let rcl ← callDeleteLog lid
      if rcl.1 = 0 then ExcState.pure (.err 404 ("log " ++ toString lid ++ " not found"))
      else ExcState.pure (.deleted "log deleted" lid))
    isAnyException
    (fun _ => ExcState.pure (.err 400 "Failed to delete log"))

/-- An empty healthy world, used to instantiate universally quantified
statements at concrete inputs. -/
def w0 : World := ⟨[], [], .normal, []⟩

/-- A fixed current time standing in for `datetime.utcnow()`. -/
def now0 : Datetime := ⟨2025, 1, 1, 0, 0, 0⟩

/-- A world with one sensor (id 1) and one stored log row (id 5). -/
def wd : World := ⟨[⟨5, now0, 1, 70, 40, 990⟩], [1], .normal, []⟩

/-- A world with one registered sensor and an empty log table. -/
def w1 : World := ⟨[], [1], .normal, []⟩

/-- The round-trip request body of spec section 8: a log posted with
`read_time` equal to `2025-09-24T13:05:00`. -/
def rtBody : Body :=
  [("sensor_id", .jint 1), ("temperature_f", .jnum (145 / 2)),
   ("humidity", .jnum (443 / 10)), ("pressure", .jnum (4976 / 5)),
   ("read_time", .jstr "2025-09-24T13:05:00")]

/-- The world after posting the round-trip body into `w1`. -/
def rtWorld : World := ((create_temperature rtBody now0).run w1).2

/-- A complete sensor-creation body. -/
def sensorBody : Body :=
  [("sensor_id", .jint 7), ("mac_addr", .jstr "aa:bb:cc:dd:ee:ff"),
   ("device_id", .jstr "esp32-1"), ("device_location", .jstr "lab")]

/-- The `read_time` field of the JSON object a single-row response
carries, when there is one. -/
def respReadTime : Except PyExc Resp → Option JVal
  | .ok (.okOut _ (.row r)) => r.lookup "read_time"
  | .ok (.created _ (.row r)) => r.lookup "read_time"
  | _ => Option.none

/-- Whether a handler outcome is a response rather than an escaped
exception. -/
def excOk : Except PyExc α → Bool
  | .ok _ => true
  | .error _ => false

/-- A driver detail message of a duplicate-key integrity error. -/
def dupMsg : String := "Duplicate entry 7 for key sensors.PRIMARY"

/-- A driver detail message of a lost-connection operational error. -/
def lostConnMsg : String := "Lost connection to MySQL server during query"

/-- A driver detail message of a lock-wait operational error. -/
def lockMsg : String := "Lock wait timeout exceeded; try restarting transaction"

/-- A driver detail message of a failed connection attempt. -/
def connMsg : String := "Can not connect to MySQL server"

/-! Theorems. -/

theorem digitChar_isDigit (n : Nat) : (digitChar n).isDigit = true := by
  unfold digitChar
  have h : n % 10 < 10 := Nat.mod_lt _ (by decide)
  set k := n % 10 with hk
  interval_cases k <;> decide

theorem digitChar_toNat (n : Nat) : (digitChar n).toNat = 48 + n % 10 := by
  unfold digitChar
  have h : n % 10 < 10 := Nat.mod_lt _ (by decide)
  set k := n % 10 with hk
  interval_cases k <;> simp

theorem decode_pad2 (n : Nat) (h : n ≤ 99) : decodeDigits (pad2Chars n) = n := by
  simp [decodeDigits, pad2Chars, digitChar_toNat]
  omega

theorem decode_pad4 (n : Nat) (h : n ≤ 9999) : decodeDigits (pad4Chars n) = n := by
  simp [decodeDigits, pad4Chars, digitChar_toNat]
  omega

/-- C1: with a live connection, `DB.execute` commits on success and
returns `(rowcount, lastrowid)`; on any exception it rolls back and
re-raises the original exception; in both cases the connection is closed
before the call returns.  `DB.fetch_all` / `DB.fetch_one` (the `fetch`
model at their two result shapes) likewise unconditionally close the
connection, including when the query raises. -/
theorem db_execute_commit_rollback_close :
    (∀ rc lid, (DB.execute .ok (.ok rc lid)).run [] =
      (.ok (rc, lid), [.connected, .committed, .closed])) ∧
    (∀ e, (DB.execute .ok (.raises e)).run [] =
      (.error e, [.connected, .rolledBack, .closed])) ∧
    (∀ rows : List SRow, (DB.fetch .ok (.ok rows)).run [] =
      (.ok rows, [.connected, .closed])) ∧
    (∀ e, (DB.fetch (ρ := List SRow) .ok (.raises e)).run [] =
      (.error e, [.connected, .closed])) ∧
    (∀ row : Option SRow, (DB.fetch .ok (.ok row)).run [] =
      (.ok row, [.connected, .closed])) ∧
    (∀ e, (DB.fetch (ρ := Option SRow) .ok (.raises e)).run [] =
      (.error e, [.connected, .closed])) := by
  refine ⟨fun rc lid => rfl, fun e => rfl, fun rows => rfl, fun e => rfl,
    fun row => rfl, fun e => rfl⟩

/-- C4: `as_json` is a total function over the stored value types; it
maps absent input to absent output, maps a single row or a list of rows
structurally, converts every `Decimal` to a float and every `datetime`
to the fixed 19-character `YYYY-MM-DD HH:MM:SS` rendering (space
separator, second precision, no timezone, and the digit groups decode to
the datetime fields), and leaves string, integer and null values
unchanged. -/
theorem as_json_total_structural_conversion :
    (as_json .absent = .absent) ∧
    (∀ r : SRow, as_json (.row r) = .row (r.map (fun kv => (kv.1, convert_value kv.2)))) ∧
    (∀ rs : List SRow,
      as_json (.rows rs) = .rows (rs.map (fun r => r.map (fun kv => (kv.1, convert_value kv.2))))) ∧
    (∀ q, convert_value (.decimal q) = .jnum q) ∧
    (∀ s, convert_value (.str s) = .jstr s) ∧
    (∀ n, convert_value (.int n) = .jint n) ∧
    (convert_value .null = .jnull) ∧
    (∀ dt : Datetime, dt.valid →
      convert_value (.datetime dt) = .jstr dt.isoformatSpaceSeconds ∧
      isFixedFormatTimestamp dt.isoformatSpaceSeconds ∧
      decodeDigits (dt.isoformatSpaceSeconds.data.take 4) = dt.year ∧
      decodeDigits ((dt.isoformatSpaceSeconds.data.drop 5).take 2) = dt.month ∧
      decodeDigits ((dt.isoformatSpaceSeconds.data.drop 8).take 2) = dt.day ∧
      decodeDigits ((dt.isoformatSpaceSeconds.data.drop 11).take 2) = dt.hour ∧
      decodeDigits ((dt.isoformatSpaceSeconds.data.drop 14).take 2) = dt.minute ∧
      decodeDigits ((dt.isoformatSpaceSeconds.data.drop 17).take 2) = dt.second) := by
  refine ⟨rfl, fun r => rfl, fun rs => rfl, fun q => rfl, fun s => rfl, fun n => rfl, rfl,
    fun dt hv => ?_⟩
  obtain ⟨hy1, hy2, hm1, hm2, hd1, hd2, hh, hmin, hs⟩ := hv
  refine ⟨rfl, ?_, ?_, ?_, ?_, ?_, ?_, ?_⟩
  · exact ⟨digitChar (dt.year / 1000), digitChar (dt.year / 100), digitChar (dt.year / 10),
      digitChar dt.year, digitChar (dt.month / 10), digitChar dt.month,
      digitChar (dt.day / 10), digitChar dt.day, digitChar (dt.hour / 10), digitChar dt.hour,
      digitChar (dt.minute / 10), digitChar dt.minute, digitChar (dt.second / 10),
      digitChar dt.second,
      by simp [List.all, digitChar_isDigit],
      by simp [Datetime.isoformatSpaceSeconds, pad4Chars, pad2Chars]⟩
  all_goals
    simp [Datetime.isoformatSpaceSeconds, pad4Chars, pad2Chars, decodeDigits, digitChar_toNat]
  all_goals omega

theorem pyIntDigits_error (ds : List Char) (e : PyExc) (h : pyIntDigits ds = .error e) :
    e = .valueError := by
  unfold pyIntDigits at h
  split at h
  · cases h
  · cases h
    rfl

theorem pyIntOfString_error (s : String) (e : PyExc) (h : pyIntOfString s = .error e) :
    e = .valueError := by
  unfold pyIntOfString at h
  split at h <;> split at h <;> cases h <;> exact pyIntDigits_error _ _ (by assumption)

theorem limOff_error (larg oarg : Option String) (e : PyExc)
    (h : limOff larg oarg = .error e) : isValueError e = true := by
  unfold limOff at h
  rcases larg with _ | s
  · rcases oarg with _ | t
    · simp [Bind.bind, Except.bind] at h
    · simp only [Bind.bind, Except.bind] at h
      cases ho : pyIntOfString t <;> rw [ho] at h
      · cases h
        rw [pyIntOfString_error t _ ho]
        rfl
      · cases h
  · simp only [Bind.bind, Except.bind] at h
    cases hs : pyIntOfString s <;> rw [hs] at h
    · cases h
      rw [pyIntOfString_error s _ hs]
      rfl
    · rcases oarg with _ | t
      · simp at h
      · simp only [] at h
        cases ho : pyIntOfString t <;> rw [ho] at h
        · cases h
          rw [pyIntOfString_error t _ ho]
          rfl
        · cases h

theorem sqlSelectTempsDesc_ok (temps : List TempRow) (lim off : Int) (rows : List TempRow)
    (h : sqlSelectTempsDesc temps lim off = .ok rows) :
    rows.Pairwise (fun a b => b.log_id ≤ a.log_id) ∧ rows.length ≤ lim.toNat := by
  unfold sqlSelectTempsDesc at h
  split at h
  · cases h
  · cases h
    constructor
    · have hs := @List.sorted_mergeSort TempRow
        (fun a b => decide (b.log_id ≤ a.log_id))
        (fun a b c hab hbc => by
          simp only [decide_eq_true_eq] at *
          omega)
        (fun a b => by
          simp only [Bool.or_eq_true, decide_eq_true_eq]
          omega)
        temps
      have hsub : List.Sublist
          (((temps.mergeSort (fun a b => decide (b.log_id ≤ a.log_id))).drop off.toNat).take
            lim.toNat)
          (temps.mergeSort (fun a b => decide (b.log_id ≤ a.log_id))) :=
        (List.take_sublist _ _).trans (List.drop_sublist _ _)
      exact (hs.sublist hsub).imp (fun hab => by simpa using hab)
    · exact List.length_take_le _ _

/-- C2: for both POST endpoints, whenever some required field is absent
from the parsed body, the computed missing-field list consists exactly of
the absent required names in required-field order (it is a sublist of the
required list), the handler answers 400 with the message listing them
comma-separated, and no database statement is executed (the world,
including the statement trace and the tables, is returned untouched). -/
theorem post_missing_fields_reject :
    ∀ data : Body,
      (∀ k, k ∈ missingOf sensorRequired data ↔
        k ∈ sensorRequired ∧ data.lookup k = Option.none) ∧
      (∀ k, k ∈ missingOf tempRequired data ↔
        k ∈ tempRequired ∧ data.lookup k = Option.none) ∧
      (missingOf sensorRequired data).Sublist sensorRequired ∧
      (missingOf tempRequired data).Sublist tempRequired ∧
      (missingOf sensorRequired data ≠ [] →
        ∀ execO readO w, (create_sensor data execO readO).run w =
          (.ok (.err 400 ("Missing fields: " ++
            String.intercalate ", " (missingOf sensorRequired data))), w)) ∧
      (missingOf tempRequired data ≠ [] →
        ∀ now w, (create_temperature data now).run w =
          (.ok (.err 400 ("Missing fields: " ++
            String.intercalate ", " (missingOf tempRequired data))), w)) := by
  intro data
  refine ⟨?_, ?_, List.filter_sublist _, List.filter_sublist _, ?_, ?_⟩
  · intro k
    simp [missingOf, List.mem_filter, Option.isNone_iff_eq_none]
  · intro k
    simp [missingOf, List.mem_filter, Option.isNone_iff_eq_none]
  · intro hne execO readO w
    cases hm : missingOf sensorRequired data with
    | nil => exact absurd hm hne
    | cons k ks => simp [create_sensor, hm, ExcState.run, ExcState.pure]
  · intro hne now w
    cases hm : missingOf tempRequired data with
    | nil => exact absurd hm hne
    | cons k ks => simp [create_temperature, hm, ExcState.run, ExcState.pure]

/-- Witness for C2: the empty body is missing all required fields of
both endpoints and is rejected without touching the database. -/
theorem post_missing_fields_reject_witness :
    (create_sensor [] (.ok 1 0) (.ok Option.none)).run w0 =
      (.ok (.err 400 ("Missing fields: " ++
        String.intercalate ", " (missingOf sensorRequired []))), w0) ∧
    (create_temperature [] now0).run w0 =
      (.ok (.err 400 ("Missing fields: " ++
        String.intercalate ", " (missingOf tempRequired []))), w0) :=
  ⟨(post_missing_fields_reject []).2.2.2.2.1 (by decide) (.ok 1 0) (.ok Option.none) w0,
   (post_missing_fields_reject []).2.2.2.2.2 (by decide) now0 w0⟩

/-- C3: pagination of `GET /api/v1/temperatures`.  `limit` defaults to
100 and `offset` to 0; a requested limit of 5000 is clamped to 1000 and
at most 1000 rows come back, in `log_id`-descending order; negative
values of either parameter pass through unclamped; and a value that does
not parse as an integer yields the 400 error response.  In general the
listing query returns at most `limit` rows, ordered by `log_id`
descending. -/
theorem list_temperatures_pagination :
    (limOff Option.none Option.none = .ok (100, 0)) ∧
    (limOff (some "5000") Option.none = .ok (1000, 0)) ∧
    (limOff (some "-5") (some "-3") = .ok (-5, -3)) ∧
    (limOff (some "abc") Option.none = .error .valueError) ∧
    (∀ larg oarg w e, limOff larg oarg = .error e →
      (list_temperatures larg oarg).run w =
        (.ok (.err 400 "limit and offset must be integers"), w)) ∧
    (∀ temps sids st, ∃ rows : List TempRow,
      (list_temperatures (some "5000") Option.none).run ⟨temps, sids, .normal, st⟩ =
        (.ok (.okOut 200 (as_json (.rows (rows.map TempRow.toRow)))),
          ⟨temps, sids, .normal, st ++ [.fetchStmt selectTempsQ]⟩) ∧
      rows.length ≤ 1000 ∧ rows.Pairwise (fun a b => b.log_id ≤ a.log_id)) ∧
    (∀ temps lim off rows, sqlSelectTempsDesc temps lim off = .ok rows →
      rows.Pairwise (fun a b => b.log_id ≤ a.log_id) ∧ rows.length ≤ lim.toNat) := by
  refine ⟨rfl, rfl, rfl, rfl, ?_, ?_, ?_⟩
  · intro larg oarg w e h
    have hv := limOff_error larg oarg e h
    simp [list_temperatures, ExcState.run, h, hv]
  · intro temps sids st
    refine ⟨((temps.mergeSort (fun a b => decide (b.log_id ≤ a.log_id))).drop
      (0 : Int).toNat).take (1000 : Int).toNat, rfl, ?_, ?_⟩
    · exact (sqlSelectTempsDesc_ok temps 1000 0 _ rfl).2
    · exact (sqlSelectTempsDesc_ok temps 1000 0 _ rfl).1
  · intro temps lim off rows h
    exact ⟨(sqlSelectTempsDesc_ok temps lim off rows h).1,
      (sqlSelectTempsDesc_ok temps lim off rows h).2⟩

/-- Witness for C3 at concrete inputs: a non-integer limit is answered
400, and the empty-table listing satisfies the bound and ordering. -/
theorem list_temperatures_pagination_witness :
    ((list_temperatures (some "abc") Option.none).run w0 =
      (.ok (.err 400 "limit and offset must be integers"), w0)) ∧
    (([] : List TempRow).Pairwise (fun a b => b.log_id ≤ a.log_id) ∧
      ([] : List TempRow).length ≤ (1000 : Int).toNat) :=
  ⟨list_temperatures_pagination.2.2.2.2.1 (some "abc") Option.none w0 .valueError rfl,
   list_temperatures_pagination.2.2.2.2.2.2 [] 1000 0 []
     (by simp [sqlSelectTempsDesc, List.mergeSort_nil])⟩

/-- Witness for C4 at the concrete datetime 2025-09-24 13:05:00. -/
theorem as_json_total_structural_conversion_witness :
    convert_value (.datetime ⟨2025, 9, 24, 13, 5, 0⟩) =
      .jstr (Datetime.isoformatSpaceSeconds ⟨2025, 9, 24, 13, 5, 0⟩) ∧
    isFixedFormatTimestamp (Datetime.isoformatSpaceSeconds ⟨2025, 9, 24, 13, 5, 0⟩) := by
  have h := as_json_total_structural_conversion.2.2.2.2.2.2.2 ⟨2025, 9, 24, 13, 5, 0⟩ (by decide)
  exact ⟨h.1, h.2.1⟩

/-- C5: posting a log whose `read_time` is `2025-09-24T13:05:00`
normalises the `T` to a space, parses the result as an ISO timestamp,
and stores 2025-09-24 13:05:00; both the creation response and a
subsequent `GET` of the created log serialize `read_time` back to the
string `"2025-09-24 13:05:00"`, so parsing followed by `as_json`
recovers the `T`-normalised input. -/
theorem create_then_get_round_trip :
    pyReplaceTSpace (.jstr "2025-09-24T13:05:00") = .ok "2025-09-24 13:05:00" ∧
    fromisoformat "2025-09-24 13:05:00" = .ok ⟨2025, 9, 24, 13, 5, 0⟩ ∧
    rtWorld.temps.map (fun r => r.read_time) = [⟨2025, 9, 24, 13, 5, 0⟩] ∧
    respReadTime ((create_temperature rtBody now0).run w1).1 =
      some (.jstr "2025-09-24 13:05:00") ∧
    respReadTime ((get_log 1).run rtWorld).1 = some (.jstr "2025-09-24 13:05:00") := by
  refine ⟨by rfl, by rfl, by rfl, by rfl, by rfl⟩

/-- C6: the update and delete handlers answer 404 exactly when the
executed statement affects zero rows, and the read handlers answer 404
exactly when the read yields no row — in every case via an ordinary
return value, not an exception; consequently deleting an existing log id
twice yields success on the first call and 404 on the second. -/
theorem not_found_via_zero_affected_rows :
    (∀ sid data readO w rc lid,
      (updatableSensorFields.filter (fun k => (data.lookup k).isSome)) ≠ [] →
      ((((update_sensor sid data (.ok rc lid) readO).run w).1 =
          .ok (.err 404 ("Sensor " ++ toString sid ++ " not found"))) ↔ rc = 0)) ∧
    (∀ lid data us w,
      update_log_validate data = .ok (.inr us) → us ≠ [] →
      w.behavior = .normal → updateLogFkBad w lid us = false →
      ((((update_log lid data).run w).1 =
          .ok (.err 404 ("log " ++ toString lid ++ " not found"))) ↔
        updateLogRc w lid us = 0)) ∧
    (∀ lid w, w.behavior = .normal →
      ((((delete_log lid).run w).1 =
          .ok (.err 404 ("log " ++ toString lid ++ " not found"))) ↔
        (w.temps.filter (fun r => r.log_id == lid)).length = 0)) ∧
    (∀ lid w, w.behavior = .normal →
      ((((get_log lid).run w).1 =
          .ok (.err 404 ("log " ++ toString lid ++ " not found"))) ↔
        w.temps.find? (fun r => r.log_id == lid) = Option.none)) ∧
    (∀ sid w, ((get_sensor sid (.ok Option.none)).run w).1 =
      .ok (.err 404 ("Sensor " ++ toString sid ++ " not found"))) ∧
    (∀ sid r w, ((get_sensor sid (.ok (some r))).run w).1 =
      .ok (.okOut 200 (as_json (.row r)))) ∧
    (∀ lid w, w.behavior = .normal → (∃ r, r ∈ w.temps ∧ r.log_id = lid) →
      ((delete_log lid).run w).1 = .ok (.deleted "log deleted" lid) ∧
      ((delete_log lid).run ((delete_log lid).run w).2).1 =
        .ok (.err 404 ("log " ++ toString lid ++ " not found"))) := by
  refine ⟨?_, ?_, ?_, ?_, fun sid w => rfl, fun sid r w => rfl, ?_⟩
  · intro sid data readO w rc lid hf
    cases hfe : updatableSensorFields.filter (fun k => (data.lookup k).isSome) with
    | nil => exact absurd hfe hf
    | cons f fs =>
        rcases rc with _ | rc
        · simp [update_sensor, hfe, ExcState.run, ExcState.pure, Bind.bind, ExcState.bind,
            pyTry, oracleExec]
        · cases readO <;>
            simp [update_sensor, hfe, ExcState.run, ExcState.pure, Bind.bind, ExcState.bind,
              pyTry, oracleExec, oracleFetch, isAnyException]
  · intro lid data us w hv hne hb hfk
    obtain ⟨temps, sids, beh, st⟩ := w
    cases hb
    cases us with
    | nil => exact absurd rfl hne
    | cons u us =>
        rcases hrc : updateLogRc ⟨temps, sids, .normal, st⟩ lid (u :: us) with _ | n
        · simp [update_log, hv, hrc, hfk, ExcState.run, ExcState.pure, Bind.bind,
            ExcState.bind, pyTry, callUpdateLog, callSelectLog, isIntegrityError,
            isAnyException, pushStmt]
        · simp [update_log, hv, hrc, hfk, ExcState.run, ExcState.pure, Bind.bind,
            ExcState.bind, pyTry, callUpdateLog, callSelectLog, isIntegrityError,
            isAnyException, pushStmt]
  · intro lid w hb
    obtain ⟨temps, sids, beh, st⟩ := w
    cases hb
    rcases hrc : (temps.filter (fun r => r.log_id == lid)).length with _ | n
    · simp [delete_log, callDeleteLog, hrc, ExcState.run, ExcState.pure, Bind.bind,
        ExcState.bind, pyTry, isAnyException]
    · simp [delete_log, callDeleteLog, hrc, ExcState.run, ExcState.pure, Bind.bind,
        ExcState.bind, pyTry, isAnyException]
  · intro lid w hb
    obtain ⟨temps, sids, beh, st⟩ := w
    cases hb
    cases hfind : temps.find? (fun r => r.log_id == lid) <;>
      simp [get_log, callSelectLog, hfind, ExcState.run, ExcState.pure, Bind.bind,
        ExcState.bind]
  · intro lid w hb hex
    obtain ⟨temps, sids, beh, st⟩ := w
    cases hb
    obtain ⟨r, hrmem, hrid⟩ := hex
    have hmem : r ∈ temps.filter (fun r => r.log_id == lid) :=
      List.mem_filter.mpr ⟨hrmem, by simp [hrid]⟩
    have hlen : (temps.filter (fun r => r.log_id == lid)).length ≠ 0 := by
      intro h0
      rw [List.length_eq_zero] at h0
      rw [h0] at hmem
      cases hmem
    have hnil : ((temps.filter (fun r => r.log_id != lid)).filter
        (fun r => r.log_id == lid)) = [] := by
      rw [List.filter_eq_nil_iff]
      intro a ha
      have := (List.mem_filter.mp ha).2
      simp only [bne_iff_ne, ne_eq] at this
      simp [this]
    constructor
    · simp [delete_log, callDeleteLog, hlen, ExcState.run, ExcState.pure, Bind.bind,
        ExcState.bind, pyTry, isAnyException]
    · simp [delete_log, callDeleteLog, hlen, hnil, ExcState.run, ExcState.pure, Bind.bind,
        ExcState.bind, pyTry, isAnyException, pushStmt]

/-- Witness for C6: in the world `wd` holding exactly one log row with
id 5, the first delete succeeds and the second answers 404. -/
theorem not_found_via_zero_affected_rows_witness :
    ((delete_log 5).run wd).1 = .ok (.deleted "log deleted" 5) ∧
    ((delete_log 5).run ((delete_log 5).run wd).2).1 =
      .ok (.err 404 ("log " ++ toString (5 : Nat) ++ " not found")) :=
  not_found_via_zero_affected_rows.2.2.2.2.2.2 5 wd rfl
    ⟨⟨5, now0, 1, 70, 40, 990⟩, List.mem_singleton.mpr rfl, rfl⟩

/-- Counterexample to C7 as stated: `PUT /api/v1/sensors/(id)` has no
specific IntegrityError handler (only `except Exception`), so a
duplicate-key IntegrityError raised by the update statement is answered
with the generic message, which does not contain the driver detail
text. -/
theorem update_sensor_integrity_detail_lost :
    ((((update_sensor 7 [("mac_addr", .jstr "aa:bb")]
        (.raises (.integrityError 1062 dupMsg)) (.ok Option.none)).run w0).1 =
      .ok (.err 400 "Failed to update sensor"))) ∧
    ¬ List.IsInfix dupMsg.data ("Failed to update sensor").data := by
  exact ⟨rfl, by decide⟩

/-- C7 amended: `POST /api/v1/sensors`, `POST /api/v1/temperatures` and
`PUT /api/v1/temperatures/(id)` catch the driver IntegrityError
specifically — distinguished from other exceptions, which get the
generic message — and answer 400 with the driver detail text verbatim;
`PUT /api/v1/sensors/(id)` alone catches only `Exception` and answers
the generic 400 message without the detail text. -/
theorem integrity_error_reporting :
    (∀ data readO w errno msg sid,
      missingOf sensorRequired data = [] →
      pyInt (getv data "sensor_id") = .ok sid →
      ((create_sensor data (.raises (.integrityError errno msg)) readO).run w).1 =
        .ok (.err 400 ("Integrity error: " ++ msg))) ∧
    (∀ data readO w e sid,
      missingOf sensorRequired data = [] →
      pyInt (getv data "sensor_id") = .ok sid →
      isIntegrityError e = false →
      ((create_sensor data (.raises e) readO).run w).1 =
        .ok (.err 400 "Failed to create sensor")) ∧
    (∀ data now temps sids st errno msg dt sid tf hum pr,
      missingOf tempRequired data = [] →
      parseReadTime (data.lookup "read_time") now = .ok dt →
      pyInt (getv data "sensor_id") = .ok sid →
      pyFloat (getv data "temperature_f") = .ok tf →
      pyFloat (getv data "humidity") = .ok hum →
      pyFloat (getv data "pressure") = .ok pr →
      ((create_temperature data now).run
          ⟨temps, sids, .failWith (.integrityError errno msg), st⟩).1 =
        .ok (.err 400 ("Integrity error: " ++ msg))) ∧
    (∀ lid data us temps sids st errno msg,
      update_log_validate data = .ok (.inr us) → us ≠ [] →
      ((update_log lid data).run
          ⟨temps, sids, .failWith (.integrityError errno msg), st⟩).1 =
        .ok (.err 400 ("Integrity error: " ++ msg))) ∧
    (∀ sid data readO w errno msg,
      (updatableSensorFields.filter (fun k => (data.lookup k).isSome)) ≠ [] →
      ((update_sensor sid data (.raises (.integrityError errno msg)) readO).run w).1 =
        .ok (.err 400 "Failed to update sensor")) := by
  refine ⟨?_, ?_, ?_, ?_, ?_⟩
  · intro data readO w errno msg sid hmiss hint
    simp [create_sensor, hmiss, hint, oracleExec, pyTry, isIntegrityError, pyArgs1,
      liftE, Bind.bind, ExcState.bind, ExcState.pure, ExcState.run, pushStmt]
  · intro data readO w e sid hmiss hint hni
    simp [create_sensor, hmiss, hint, hni, oracleExec, pyTry, isAnyException,
      liftE, Bind.bind, ExcState.bind, ExcState.pure, ExcState.run, pushStmt]
  · intro data now temps sids st errno msg dt sid tf hum pr hmiss hrt hsid htf hhum hpr
    simp [create_temperature, hmiss, hrt, hsid, htf, hhum, hpr, callInsertLog, pyTry,
      isIntegrityError, pyArgs1, liftE, Bind.bind, ExcState.bind, ExcState.pure,
      ExcState.run, pushStmt]
  · intro lid data us temps sids st errno msg hv hne
    cases us with
    | nil => exact absurd rfl hne
    | cons u us =>
        simp [update_log, hv, callUpdateLog, pyTry, isIntegrityError, pyArgs1,
          Bind.bind, ExcState.bind, ExcState.pure, ExcState.run, pushStmt]
  · intro sid data readO w errno msg hf
    cases hfe : updatableSensorFields.filter (fun k => (data.lookup k).isSome) with
    | nil => exact absurd hfe hf
    | cons f fs =>
        simp [update_sensor, hfe, oracleExec, pyTry, isAnyException, Bind.bind,
          ExcState.bind, ExcState.pure, ExcState.run, pushStmt]

/-- Witness for C7 (amended) at concrete inputs: a complete sensor body
whose insert raises a duplicate-key IntegrityError is answered with the
driver detail, while the sensor update is answered generically. -/
theorem integrity_error_reporting_witness :
    (((create_sensor sensorBody (.raises (.integrityError 1062 dupMsg))
        (.ok Option.none)).run w0).1 = .ok (.err 400 ("Integrity error: " ++ dupMsg))) ∧
    (((update_sensor 7 [("device_id", .jstr "x")] (.raises (.integrityError 1062 dupMsg))
        (.ok Option.none)).run w0).1 = .ok (.err 400 "Failed to update sensor")) :=
  ⟨integrity_error_reporting.1 sensorBody (.ok Option.none) w0 1062 dupMsg 7 (by decide) rfl,
   integrity_error_reporting.2.2.2.2 7 [("device_id", .jstr "x")] (.ok Option.none) w0 1062
     dupMsg (by decide)⟩

/-- Counterexample to C8 as stated: `GET /api/v1/sensors` has no
try/except at all, so an exception raised by its database call escapes
the handler instead of becoming a JSON error response. -/
theorem list_sensors_exception_escapes :
    ((list_sensors (.raises (.operationalError 2013 lostConnMsg))).run w0).1 =
      .error (.operationalError 2013 lostConnMsg) := rfl

theorem pyTry_catch_all_ok {σ α : Type} (body : ExcState σ α) (handler : PyExc → ExcState σ α)
    (s : σ) (hh : ∀ e s1, excOk ((handler e s1).1) = true) :
    excOk (((pyTry body isAnyException handler) s).1) = true := by
  unfold pyTry
  rcases hb : body s with ⟨r, s1⟩
  cases r with
  | error e => exact hh e s1
  | ok a => rfl

/-- C8 amended: the handlers that wrap their database work in a
try/except (`health`, both POST handlers, both PUT handlers via their
guarded database phase, and DELETE) always return a response, but the
four read handlers (`list_sensors`, `get_sensor`, `list_temperatures`,
`get_log`) have no try/except around their database call and let any
exception it raises escape unchanged. -/
theorem handler_exception_boundary :
    (∀ e w, ((list_sensors (.raises e)).run w).1 = .error e) ∧
    (∀ sid e w, ((get_sensor sid (.raises e)).run w).1 = .error e) ∧
    (∀ e temps sids st,
      ((list_temperatures Option.none Option.none).run ⟨temps, sids, .failWith e, st⟩).1 =
        .error e) ∧
    (∀ lid e temps sids st,
      ((get_log lid).run ⟨temps, sids, .failWith e, st⟩).1 = .error e) ∧
    (∀ w, excOk ((health.run w).1) = true) ∧
    (∀ data execO readO w, excOk (((create_sensor data execO readO).run w).1) = true) ∧
    (∀ sid data execO readO w, excOk (((update_sensor sid data execO readO).run w).1) = true) ∧
    (∀ data now w, excOk (((create_temperature data now).run w).1) = true) ∧
    (∀ lid w, excOk (((delete_log lid).run w).1) = true) ∧
    (∀ lid data us w, update_log_validate data = .ok (.inr us) →
      excOk (((update_log lid data).run w).1) = true) ∧
    (∀ lid data r w, update_log_validate data = .ok (.inl r) →
      excOk (((update_log lid data).run w).1) = true) := by
  refine ⟨fun e w => rfl, fun sid e w => rfl, fun e temps sids st => rfl,
    fun lid e temps sids st => rfl, ?_, ?_, ?_, ?_, ?_, ?_, ?_⟩
  · intro w
    exact pyTry_catch_all_ok _ _ w (fun e s1 => rfl)
  · intro data execO readO w
    unfold create_sensor ExcState.run
    split
    · rfl
    · exact pyTry_catch_all_ok _ _ w (fun e s1 => rfl)
  · intro sid data execO readO w
    unfold update_sensor ExcState.run
    split
    · rfl
    · exact pyTry_catch_all_ok _ _ w (fun e s1 => rfl)
  · intro data now w
    unfold create_temperature ExcState.run
    split
    · rfl
    · cases hp : parseReadTime (data.lookup "read_time") now with
      | error r => rfl
      | ok dt => exact pyTry_catch_all_ok _ _ w (fun e s1 => rfl)
  · intro lid w
    exact pyTry_catch_all_ok _ _ w (fun e s1 => rfl)
  · intro lid data us w hv
    simp only [update_log, ExcState.run, hv]
    split
    · rfl
    · exact pyTry_catch_all_ok _ _ w (fun e s1 => rfl)
  · intro lid data r w hv
    simp only [update_log, ExcState.run, hv]
    rfl

/-- Witness for C8 (amended) at concrete inputs: a body whose validation
succeeds and a body whose validation early-returns 400 both make
`update_log` return a response on any world, database faults
included. -/
theorem handler_exception_boundary_witness :
    excOk (((update_log 5 [("sensor_id", JVal.jint 3)]).run
      ⟨[], [], .failWith (.operationalError 2013 lostConnMsg), []⟩).1) = true ∧
    excOk (((update_log 5 [("temperature_f", JVal.jstr "abc")]).run
      ⟨[], [], .failWith (.operationalError 2013 lostConnMsg), []⟩).1) = true :=
  ⟨handler_exception_boundary.2.2.2.2.2.2.2.2.2.1 5 [("sensor_id", JVal.jint 3)]
      [.sensorId 3] ⟨[], [], .failWith (.operationalError 2013 lostConnMsg), []⟩ (by rfl),
   handler_exception_boundary.2.2.2.2.2.2.2.2.2.2 5 [("temperature_f", JVal.jstr "abc")]
      (.err 400 "temperature_f must be a number")
      ⟨[], [], .failWith (.operationalError 2013 lostConnMsg), []⟩ (by rfl)⟩

/-- Counterexample to C9 as stated: the data-access helper performs no
classification — a connection failure re-raises the driver
OperationalError itself, not a `ConnectionError`, and a non-integrity
execution failure re-raises unchanged rather than signalling any generic
`QueryError` (no such class exists in the source). -/
theorem db_helper_no_classification :
    ((DB.execute .ok (.raises (.operationalError 1205 lockMsg))).run [] =
      (.error (.operationalError 1205 lockMsg), [.connected, .rolledBack, .closed])) ∧
    PyExc.operationalError 1205 lockMsg ≠ PyExc.queryError ∧
    ((DB.fetch (ρ := List SRow) (.fails (.operationalError 2003 connMsg)) (.ok [])).run [] =
      (.error (.operationalError 2003 connMsg), [])) ∧
    PyExc.operationalError 2003 connMsg ≠ PyExc.connectionError := by
  refine ⟨rfl, by simp, rfl, by simp⟩

/-- C9 amended: the helper re-raises the original driver exception in
every failure mode — a failed connection re-raises the pymysql error
from `__connect__` (in `execute` and the fetch helpers alike), a
constraint violation surfaces as the driver IntegrityError still
carrying its human-readable message, and every other execution error
surfaces unchanged; no `ConnectionError` or `QueryError` wrapping
happens anywhere. -/
theorem db_helper_reraises_original :
    (∀ e, (DB.execute .ok (.raises e)).run [] =
      (.error e, [.connected, .rolledBack, .closed])) ∧
    (∀ e (so : FetchOutcome (List SRow)), (DB.fetch (.fails e) so).run [] = (.error e, [])) ∧
    (∀ e so, (DB.execute (.fails e) so).run [] = (.error e, [])) ∧
    (∀ errno msg, (DB.execute .ok (.raises (.integrityError errno msg))).run [] =
      (.error (.integrityError errno msg), [.connected, .rolledBack, .closed]) ∧
      pyArgs1 (.integrityError errno msg) = msg ∧
      isIntegrityError (.integrityError errno msg) = true) := by
  refine ⟨fun e => rfl, ?_, ?_, fun errno msg => ⟨rfl, rfl, rfl⟩⟩
  · intro e so
    unfold DB.fetch DB.connect ExcState.run
    cases he : isPymysqlError e <;>
      simp [pyTry, ExcState.raise, Bind.bind, ExcState.bind, he]
  · intro e so
    unfold DB.execute DB.connect ExcState.run
    cases he : isPymysqlError e <;>
      simp [pyTry, ExcState.raise, Bind.bind, ExcState.bind, he]

/-- C10: in `PUT /api/v1/temperatures/(id)` the per-field checks for
`sensor_id`, `temperature_f`, `humidity` and `pressure` catch only
`ValueError`; when the field value makes the conversion raise some other
exception — `float(None)` or `float([])` raise `TypeError` — no 400
branch catches it and it escapes the validation block (and with it the
handler), while a `ValueError` (e.g. a non-numeric string) is still
answered 400. -/
theorem update_log_type_checks_catch_only_value_error :
    (∀ v e, pyFloat v = .error e → isValueError e = false →
      update_log_validate [("temperature_f", v)] = .error e) ∧
    (∀ v e, pyFloat v = .error e → isValueError e = false →
      update_log_validate [("humidity", v)] = .error e) ∧
    (∀ v e, pyFloat v = .error e → isValueError e = false →
      update_log_validate [("pressure", v)] = .error e) ∧
    (∀ v e, pyInt v = .error e → isValueError e = false →
      update_log_validate [("sensor_id", v)] = .error e) ∧
    (∀ lid w, (update_log lid [("temperature_f", JVal.jnull)]).run w = (.error .typeError, w)) ∧
    (∀ lid w, (update_log lid [("temperature_f", JVal.jlist [])]).run w =
      (.error .typeError, w)) ∧
    (∀ lid w, (update_log lid [("sensor_id", JVal.jnull)]).run w = (.error .typeError, w)) ∧
    (update_log_validate [("temperature_f", JVal.jstr "abc")] =
      .ok (.inl (.err 400 "temperature_f must be a number"))) := by
  refine ⟨?_, ?_, ?_, ?_, fun lid w => rfl, fun lid w => rfl, fun lid w => rfl, rfl⟩
  · intro v e hf hnv
    simp [update_log_validate, stepField, convTempF, hf, hnv, Bind.bind, Except.bind,
      List.lookup, Except.map]
  · intro v e hf hnv
    simp [update_log_validate, stepField, convHumidity, hf, hnv, Bind.bind, Except.bind,
      List.lookup, Except.map]
  · intro v e hf hnv
    simp [update_log_validate, stepField, convPressure, hf, hnv, Bind.bind, Except.bind,
      List.lookup, Except.map]
  · intro v e hf hnv
    simp [update_log_validate, stepField, convSensorId, hf, hnv, Bind.bind, Except.bind,
      List.lookup, Except.map]

/-- Witness for C10: `temperature_f: null` makes `float` raise
`TypeError`, which no 400 branch catches. -/
theorem update_log_type_checks_witness :
    update_log_validate [("temperature_f", JVal.jnull)] = .error .typeError :=
  update_log_type_checks_catch_only_value_error.1 JVal.jnull .typeError rfl rfl

end TempApi
